import Mathlib

/-!
Verification model of the power-meter OCR monitor
(`power_meter_ocr_monitor.py`).

The decode pipeline is embedded shallowly:

* one digit slot's segment on/off assignment is a `SegPattern` (7 booleans,
  one per segment name `a`..`g`);
* Python `float` arithmetic on readings and multipliers is modelled by exact
  rationals (the multipliers are decimal constants and all claims are about
  their exact decimal values);
* a grayscale or binary frame is a total intensity function `Nat → Nat → Nat`
  (x, y ↦ intensity), with rectangular regions handled by explicit index
  ranges;
* the global `error_msg` string accumulator is threaded explicitly through
  the digit decoding pass, and is `""` at the start of each cycle (the loop
  resets it right after logging);
* the three LiFePO4wered telemetry reads are modelled by a `TelemetryEnv` of
  three `Option ℤ` values, `none` meaning that read raises.
-/

namespace PowerMeterOCR

/-- Segment on/off state of one digit slot; field `a`..`g` mirrors
`lcd_state["digits"][name][seg]` for the seven `SEGMENT_NAMES`. -/
structure SegPattern where
  a : Bool
  b : Bool
  c : Bool
  d : Bool
  e : Bool
  f : Bool
  g : Bool
deriving DecidableEq, Repr

/-- The seven segment names, in source order (`SEGMENT_NAMES`),
which is alphabetical. -/
def SEGMENT_NAMES : List String := ["a", "b", "c", "d", "e", "f", "g"]

/-- Lookup of one named segment in a pattern (the Python dict access). -/
def getSeg (s : SegPattern) (name : String) : Bool :=
  if name = "a" then s.a
  else if name = "b" then s.b
  else if name = "c" then s.c
  else if name = "d" then s.d
  else if name = "e" then s.e
  else if name = "f" then s.f
  else if name = "g" then s.g
  else false

/-- The set `{seg for seg, lit in segments.items() if lit}` of lit segment
names, listed in `SEGMENT_NAMES` order; because that order is alphabetical,
this list is exactly Python's `sorted(on_segments)`. -/
def onNames (s : SegPattern) : List String :=
  SEGMENT_NAMES.filter (fun n => getSeg s n)

/-- `SEGMENT_DIGIT_MAP` from the source, lines 255-267: each entry is the
(unordered) set of lit segments and the digit it decodes to. -/
def SEGMENT_DIGIT_MAP : List (List String × ℕ) :=
  [ ([], 0),
    (["a","b","c","d","e","f"], 0),
    (["b","c"], 1),
    (["a","b","g","e","d"], 2),
    (["a","b","c","d","g"], 3),
    (["f","g","b","c"], 4),
    (["a","f","g","c","d"], 5),
    (["a","f","e","d","c","g"], 6),
    (["a","b","c"], 7),
    (["a","b","c","d","e","f","g"], 8),
    (["a","b","c","d","f","g"], 9) ]

/-- Equality of two lists of names viewed as sets: the `frozenset` key
comparison of the Python dict lookup. -/
def setEqB (xs ys : List String) : Bool :=
  xs.all (fun x => ys.contains x) && ys.all (fun y => xs.contains y)

/-- `decode_digit`, pure part (source lines 312-320): exact-match lookup of
the lit-segment set in `SEGMENT_DIGIT_MAP`; `none` is Python's `None`
("unrecognized"). -/
def decode_digit (s : SegPattern) : Option ℕ :=
  (SEGMENT_DIGIT_MAP.find? (fun pr => setEqB pr.1 (onNames s))).map Prod.snd

/-- Python single-quote character, used by `repr` of a list of strings. -/
def pyQuote : String := String.singleton (Char.ofNat 39)

/-- Rendering of `sorted(on_segments)` inside the f-string at source
line 317: Python list repr with single-quoted elements. -/
def pyListRepr (xs : List String) : String :=
  "[" ++ String.intercalate ", " (xs.map (fun x => pyQuote ++ x ++ pyQuote)) ++ "]"

/-- The warning text `decode_digit` builds for an unrecognized pattern
(source line 317); it embeds the sorted lit-segment names. -/
def warnMsg (s : SegPattern) : String :=
  "Warning: decode_digit got unrecognized segment pattern: " ++ pyListRepr (onNames s)

/-- Error accumulation at source line 318:
`error_msg = (error_msg + " | " if error_msg else "") + error`. -/
def joinErr (e msg : String) : String :=
  if e = "" then msg else e ++ " | " ++ msg

/-- `decode_digit` with its side effect on the `error_msg` accumulator
(source lines 312-320): returns the decode result and the new accumulator. -/
def decode_digit_step (s : SegPattern) (e : String) : Option ℕ × String :=
  match decode_digit s with
  | none => (none, joinErr e (warnMsg s))
  | some d => (some d, e)

/-- Claim-side decoder, following the specification text: the 10 canonical
7-segment digit patterns plus the empty pattern mapped to 0, everything
else unrecognized. Written as a direct case split on the 7 booleans so it
can be compared with the source's set-keyed table lookup. -/
def specDecode (s : SegPattern) : Option ℕ :=
  if s = ⟨false, false, false, false, false, false, false⟩ then some 0
  else if s = ⟨true, true, true, true, true, true, false⟩ then some 0
  else if s = ⟨false, true, true, false, false, false, false⟩ then some 1
  else if s = ⟨true, true, false, true, true, false, true⟩ then some 2
  else if s = ⟨true, true, true, true, false, false, true⟩ then some 3
  else if s = ⟨false, true, true, false, false, true, true⟩ then some 4
  else if s = ⟨true, false, true, true, false, true, true⟩ then some 5
  else if s = ⟨true, false, true, true, true, true, true⟩ then some 6
  else if s = ⟨true, true, true, false, false, false, false⟩ then some 7
  else if s = ⟨true, true, true, true, true, true, true⟩ then some 8
  else if s = ⟨true, true, true, true, false, true, true⟩ then some 9
  else none

/-- The seven mode-indicator booleans, fields in `MODE_INDICATORS` order. -/
structure Modes where
  w : Bool
  curr : Bool
  volt : Bool
  freq : Bool
  ct : Bool
  ec : Bool
  pf : Bool
deriving DecidableEq, Repr

/-- Mode indicator names, in source order (`MODE_INDICATORS`, line 244),
which is also the insertion order of `lcd_state["modes"]` and hence the
dict iteration order at line 460. -/
def MODE_INDICATORS : List String := ["w", "curr", "volt", "freq", "ct", "ec", "pf"]

/-- Lookup of one named mode flag. -/
def getMode (m : Modes) (name : String) : Bool :=
  if name = "w" then m.w
  else if name = "curr" then m.curr
  else if name = "volt" then m.volt
  else if name = "freq" then m.freq
  else if name = "ct" then m.ct
  else if name = "ec" then m.ec
  else if name = "pf" then m.pf
  else false

/-- `active_modes` (source line 460): the lit mode names, in dict
(= enumeration) order. -/
def active_modes (m : Modes) : List String :=
  MODE_INDICATORS.filter (fun n => getMode m n)

/-- `mode_str` (source line 461):
`"+".join(active_modes) if active_modes else "unknown"`. -/
def mode_label (m : Modes) : String :=
  if active_modes m = [] then "unknown"
  else String.intercalate "+" (active_modes m)

/-- Claim-side mode label, following the specification text: join with `+`
the names of all lit modes in the fixed enumeration order
w, curr, volt, freq, ct, ec, pf; sentinel "unknown" when none are lit. -/
def specModeLabel (m : Modes) : String :=
  let names :=
    (if m.w then ["w"] else []) ++ (if m.curr then ["curr"] else []) ++
    (if m.volt then ["volt"] else []) ++ (if m.freq then ["freq"] else []) ++
    (if m.ct then ["ct"] else []) ++ (if m.ec then ["ec"] else []) ++
    (if m.pf then ["pf"] else [])
  if names = [] then "unknown" else String.intercalate "+" names

/-- The three decimal-dot booleans, fields named after `DOT_NAMES`
("0.001", "0.01", "0.1"). -/
structure Dots where
  d0_001 : Bool
  d0_01 : Bool
  d0_1 : Bool
deriving DecidableEq, Repr

/-- `compute_dot_multiplier` (source lines 372-380); the Python float
constants 0.1, 0.01, 0.001 are modelled by their exact decimal values. -/
def compute_dot_multiplier (dots : Dots) : ℚ :=
  if dots.d0_1 then 1/10
  else if dots.d0_01 then 1/100
  else if dots.d0_001 then 1/1000
  else 1

/-- Axis-aligned integer box `(x1, y1, x2, y2)`, half-open as in the numpy
slice `frame[y1:y2, x1:x2]` (rects are assumed to lie inside the frame, as
all the tuned ROI constants do for the configured resolution). -/
structure Rect where
  x1 : ℕ
  y1 : ℕ
  x2 : ℕ
  y2 : ℕ
deriving DecidableEq, Repr

/-- A frame is a total intensity map `x, y ↦ intensity`. -/
def Frame : Type := ℕ → ℕ → ℕ

/-- `cv2.countNonZero` over the slice `frame[y1:y2, x1:x2]`: the number of
pixels in the rect whose value is nonzero (white = 255 in a binary frame). -/
def white_pixels (frame : Frame) (r : Rect) : ℕ :=
  ∑ y in Finset.Ico r.y1 r.y2, ∑ x in Finset.Ico r.x1 r.x2,
    if frame x y ≠ 0 then 1 else 0

/-- `roi_image.shape[0] * roi_image.shape[1]` for an in-bounds rect. -/
def total_pixels (r : Rect) : ℕ :=
  (r.y2 - r.y1) * (r.x2 - r.x1)

/-- `evaluate_roi` (source lines 322-328): `black_pixels` is the rect's
area minus the white count (the Python float subtraction is exact on these
integral values, so it is modelled in ℤ); returns `black_pixels ≥
on_threshold`. The threshold is an explicit argument here; see
`evaluate_roi_default` for the Python default parameter. -/
def evaluate_roi (frame : Frame) (r : Rect) (on_threshold : ℤ) : Bool :=
  decide ((total_pixels r : ℤ) - (white_pixels frame r : ℤ) ≥ on_threshold)

/-- `evaluate_roi` called without the keyword argument: the Python
signature is `def evaluate_roi(frame_thresh, roi_tuple, on_threshold=50)`,
so the default threshold is 50. (Every call site in `loop` passes
`on_threshold=100` explicitly.) -/
def evaluate_roi_default (frame : Frame) (r : Rect) : Bool :=
  evaluate_roi frame r 50

/-- OpenCV `THRESH_BINARY` per-pixel rule, as documented for
`cv2.threshold`: `dst = maxval if src > thresh else 0` (strictly greater). -/
def cv2_threshold_binary (thresh maxval p : ℕ) : ℕ :=
  if p > thresh then maxval else 0

/-- The binarization at source line 398:
`cv2.threshold(frame_clean_gr_pre, 160, 255, cv2.THRESH_BINARY)`,
applied pixelwise to the grayscale frame. -/
def binarize (frame : Frame) : Frame :=
  fun x y => cv2_threshold_binary 160 255 (frame x y)

/-- The decoded LCD snapshot consumed by the assembly code: one segment
pattern per digit slot (fields in `DIGIT_NAMES` order 1E4..1E0), the three
dot flags and the seven mode flags. -/
structure LCDState where
  d1E4 : SegPattern
  d1E3 : SegPattern
  d1E2 : SegPattern
  d1E1 : SegPattern
  d1E0 : SegPattern
  dots : Dots
  modes : Modes
deriving DecidableEq, Repr

/-- The digit patterns in `DIGIT_NAMES` order, matching
`[lcd_state["digits"][name] for name in DIGIT_NAMES]`. -/
def digitPatterns (l : LCDState) : List SegPattern :=
  [l.d1E4, l.d1E3, l.d1E2, l.d1E1, l.d1E0]

/-- The list comprehension at source line 451, with the `error_msg`
accumulator threaded left to right through the five `decode_digit` calls. -/
def decode_digits : List SegPattern → String → List (Option ℕ) × String
  | [], e => ([], e)
  | p :: ps, e =>
    let r := decode_digit_step p e
    let rest := decode_digits ps r.2
    (r.1 :: rest.1, rest.2)

/-- Value assembly at source lines 452-458: if any decode is `None` the
value is `0.0`; otherwise the five digits are destructured as
`d4, d3, d2, d1, d0` (1E4 slot first) and weighted, then scaled by the dot
multiplier. The final fallback arm is unreachable for the 5-slot lists the
loop produces (it corresponds to Python's destructuring assumption). -/
def assemble_value (ds : List (Option ℕ)) (dots : Dots) : ℚ :=
  if ds.any (fun v => v.isNone) then 0
  else
    match ds with
    | [some d4, some d3, some d2, some d1, some d0] =>
      ((d4 : ℚ) * 10000 + (d3 : ℚ) * 1000 + (d2 : ℚ) * 100 + (d1 : ℚ) * 10
        + (d0 : ℚ)) * compute_dot_multiplier dots
    | _ => 0

/-- Availability of the three LiFePO4wered reads this cycle: `none` means
that read would raise (missing binding/CLI tool, I/O error). -/
structure TelemetryEnv where
  vbat : Option ℤ
  vin : Option ℤ
  iout : Option ℤ
deriving DecidableEq, Repr

/-- The telemetry block at source lines 464-470: all three reads run
sequentially inside one `try`, so the first failing read aborts the rest;
fields not yet assigned keep their initial `None`. -/
def read_telemetry (env : TelemetryEnv) : Option ℤ × Option ℤ × Option ℤ :=
  match env.vbat with
  | none => (none, none, none)
  | some b =>
    match env.vin with
    | none => (some b, none, none)
    | some v =>
      match env.iout with
      | none => (some b, some v, none)
      | some i => (some b, some v, some i)

/-- Everything one capture cycle hands to the logger. -/
structure CycleResult where
  value : ℚ
  mode : String
  error : String
  vbat : Option ℤ
  vin : Option ℤ
  iout : Option ℤ
deriving DecidableEq, Repr

/-- One cycle's decode + assembly + telemetry (source lines 451-474),
starting from the empty `error_msg` (the loop clears it right after each
`log_entry` call, line 475). -/
def run_cycle (l : LCDState) (env : TelemetryEnv) : CycleResult :=
  let r := decode_digits (digitPatterns l) ""
  let t := read_telemetry env
  { value := assemble_value r.1 l.dots
    mode := mode_label l.modes
    error := r.2
    vbat := t.1
    vin := t.2.1
    iout := t.2.2 }

/-- Fixed-width fractional part padding for `fmt4`. -/
def padZeros (s : String) (width : ℕ) : String :=
  String.mk (List.replicate (width - s.length) (Char.ofNat 48)) ++ s

/-- Python's `f"{value:.4f}"` for the nonnegative readings this program
produces. For every value the loop can produce, `q * 10000` is an integer
(digit sums times 10, 100, 1000 or 10000), so the half-rounding term never
takes effect and the float/rational formatting agree. -/
def fmt4 (q : ℚ) : String :=
  let m : ℤ := ⌊q * 10000 + 1/2⌋
  toString (m / 10000) ++ "." ++ padZeros (toString (m % 10000)) 4

/-- Integer-or-empty CSV cell (`"" if x is None else x`). -/
def optIntStr : Option ℤ → String
  | none => ""
  | some n => toString n

/-- `log_entry` (source lines 292-306) as invoked from the loop at
line 473: the CSV row written for one cycle. The loop passes no
temperature keywords, so `soc_C`, `rp1_C`, `pmic_C` stay at their `None`
defaults and log as empty cells. -/
def log_entry_row (ts : String) (res : CycleResult) : List String :=
  [ts, res.mode, fmt4 res.value,
   optIntStr res.vbat, optIntStr res.vin, optIntStr res.iout,
   "", "", "", res.error]

/-- Outcome of one call to `loop` as far as scheduling is concerned. -/
structure SchedStep where
  captured : Bool
  sleep : Option ℚ
  newLast : ℚ
  logTs : Option ℚ
  keepRunning : Bool
deriving DecidableEq, Repr

/-- The scheduling skeleton of `loop` (source lines 382-394, 484): `now`
is the `time.time()` sample taken at the start of the call, `capTs` the
`datetime.now()` sample taken just after `picam2.capture_array()` (which
becomes the log timestamp when a capture happens). Times are rationals in
seconds; 0.05 s = 1/20, the sleep cap. -/
def loop_sched (interval last now capTs : ℚ) : SchedStep :=
  if now - last < interval then
    { captured := false
      sleep := some (min (interval - (now - last)) (1/20))
      newLast := last
      logTs := none
      keepRunning := true }
  else
    { captured := true
      sleep := none
      newLast := now
      logTs := some capTs
      keepRunning := true }

/-- Captured/no-op flags for a sequence of `loop` calls, each given as a
pair `(now, capTs)`, starting from a given `last_capture_time`. -/
def sched_captures (interval : ℚ) : ℚ → List (ℚ × ℚ) → List Bool
  | _, [] => []
  | last, (now, ts) :: rest =>
    let st := loop_sched interval last now ts
    st.captured :: sched_captures interval st.newLast rest

/-- Canonical pattern for digit 1 (segments b, c). -/
def segOne : SegPattern := ⟨false, true, true, false, false, false, false⟩

/-- Canonical pattern for digit 2 (segments a, b, d, e, g). -/
def segTwo : SegPattern := ⟨true, true, false, true, true, false, true⟩

/-- Canonical pattern for digit 3 (segments a, b, c, d, g). -/
def segThree : SegPattern := ⟨true, true, true, true, false, false, true⟩

/-- Canonical pattern for digit 4 (segments b, c, f, g). -/
def segFour : SegPattern := ⟨false, true, true, false, false, true, true⟩

/-- Canonical pattern for digit 5 (segments a, c, d, f, g). -/
def segFive : SegPattern := ⟨true, false, true, true, false, true, true⟩

/-- The end-to-end example state: digits (1,2,3,4,5), only the "0.01" dot
lit, only the watt mode lit. -/
def exampleLCD : LCDState :=
  { d1E4 := segOne
    d1E3 := segTwo
    d1E2 := segThree
    d1E1 := segFour
    d1E0 := segFive
    dots := ⟨false, true, false⟩
    modes := ⟨true, false, false, false, false, false, false⟩ }

/-- A telemetry environment in which all three reads succeed. -/
def envOK : TelemetryEnv := ⟨some 3300, some 5000, some 120⟩

/-- `exampleLCD` with the 1E2 slot showing the unrecognized two-segment
pattern {a, g}. -/
def badLCD : LCDState :=
  { exampleLCD with d1E2 := ⟨true, false, false, false, false, false, true⟩ }

/-!
Theorems settling the claims.
-/

/-- Helper: the decode result of one accumulator step does not depend on
the accumulator. -/
theorem step_fst (p : SegPattern) (e : String) :
    (decode_digit_step p e).1 = decode_digit p := by
  unfold decode_digit_step
  split <;> simp_all

/-- Helper: the decoded values of a digit pass are the pointwise decodes. -/
theorem decode_digits_values (ps : List SegPattern) (e : String) :
    (decode_digits ps e).1 = ps.map decode_digit := by
  induction ps generalizing e with
  | nil => rfl
  | cons p ps ih => simp [decode_digits, step_fst, ih]

/-- Helper: appending to the error accumulator never shortens it. -/
theorem joinErr_length_le (e m : String) : e.length ≤ (joinErr e m).length := by
  by_cases he : e = ""
  · simp [joinErr, he]
  · simp [joinErr, he, String.length_append]
    omega

/-- Helper: joining a nonempty message yields a nonempty accumulator. -/
theorem joinErr_length_pos (e m : String) (h : 0 < m.length) :
    0 < (joinErr e m).length := by
  by_cases he : e = "" <;> simp [joinErr, he, String.length_append] <;> omega

/-- Helper: the unrecognized-pattern warning text is nonempty. -/
theorem warnMsg_length_pos (s : SegPattern) : 0 < (warnMsg s).length := by
  have h : 0 < ("Warning: decode_digit got unrecognized segment pattern: ").length := by
    decide
  simp only [warnMsg, String.length_append]
  omega

/-- Helper: one decode step never shortens the error accumulator. -/
theorem step_len_le (p : SegPattern) (e : String) :
    e.length ≤ ((decode_digit_step p e).2).length := by
  unfold decode_digit_step
  split <;> simp [joinErr_length_le]

/-- Helper: a failed decode step leaves a nonempty error accumulator. -/
theorem step_none_len_pos (p : SegPattern) (e : String)
    (h : decode_digit p = none) :
    0 < ((decode_digit_step p e).2).length := by
  unfold decode_digit_step
  rw [h]
  exact joinErr_length_pos e _ (warnMsg_length_pos p)

/-- Helper: a digit pass never shortens the error accumulator. -/
theorem decode_digits_len_le (ps : List SegPattern) (e : String) :
    e.length ≤ ((decode_digits ps e).2).length := by
  induction ps generalizing e with
  | nil => simp [decode_digits]
  | cons p ps ih =>
    simp only [decode_digits]
    exact le_trans (step_len_le p e) (ih _)

/-- Helper: if some pattern in the pass is unrecognized, the error
accumulator ends up nonempty. -/
theorem decode_digits_err_pos (ps : List SegPattern) (e : String)
    (h : ∃ p ∈ ps, decode_digit p = none) :
    0 < ((decode_digits ps e).2).length := by
  induction ps generalizing e with
  | nil => simp at h
  | cons p ps ih =>
    simp only [decode_digits]
    rcases h with ⟨q, hq, hdq⟩
    rcases List.mem_cons.mp hq with rfl | hq2
    · exact lt_of_lt_of_le (step_none_len_pos q e hdq) (decode_digits_len_le ps _)
    · exact ih _ ⟨q, hq2, hdq⟩

/-- Helper: the assembled value of one cycle, as a function of the
pointwise decodes. -/
theorem run_cycle_value (l : LCDState) (env : TelemetryEnv) :
    (run_cycle l env).value =
      assemble_value ((digitPatterns l).map decode_digit) l.dots := by
  simp [run_cycle, decode_digits_values]

/-- Helper: the error field of one cycle is the digit pass accumulator. -/
theorem run_cycle_error (l : LCDState) (env : TelemetryEnv) :
    (run_cycle l env).error = (decode_digits (digitPatterns l) "").2 := rfl

/-- Helper: any list of decodes containing `none` assembles to 0. -/
theorem assemble_value_of_mem_none (ds : List (Option ℕ)) (dots : Dots)
    (h : none ∈ ds) : assemble_value ds dots = 0 := by
  unfold assemble_value
  rw [if_pos]
  rw [List.any_eq_true]
  exact ⟨none, h, rfl⟩

/-- Helper: five recognized digits assemble to the weighted sum times the
dot multiplier. -/
theorem assemble_value_somes (d4 d3 d2 d1 d0 : ℕ) (dots : Dots) :
    assemble_value [some d4, some d3, some d2, some d1, some d0] dots =
      ((d4 : ℚ) * 10000 + (d3 : ℚ) * 1000 + (d2 : ℚ) * 100 + (d1 : ℚ) * 10
        + (d0 : ℚ)) * compute_dot_multiplier dots := rfl

/-- Helper: every digit the table can produce is at most 9. -/
theorem decode_digit_le9 (s : SegPattern) (d : ℕ)
    (h : decode_digit s = some d) : d ≤ 9 := by
  have key : ∀ a b c d e f g : Bool,
      (decode_digit ⟨a, b, c, d, e, f, g⟩).getD 0 ≤ 9 := by decide
  have h2 : (decode_digit s).getD 0 ≤ 9 := key s.a s.b s.c s.d s.e s.f s.g
  rw [h] at h2
  simpa using h2

/-- Helper: the dot multiplier is positive and at most 1. -/
theorem compute_dot_multiplier_bounds (d : Dots) :
    0 < compute_dot_multiplier d ∧ compute_dot_multiplier d ≤ 1 := by
  rcases d with ⟨x, y, z⟩
  cases x <;> cases y <;> cases z <;> norm_num [compute_dot_multiplier]

/-- C2: whenever all 5 digit slots decode to recognized digits d4..d0
(1E4 slot first), the cycle's value is the weighted sum times the dot
multiplier; and on the end-to-end example (digits (1,2,3,4,5), only the
"0.01" dot lit, only watt lit) the value is 123.45, the mode label is "w"
and the error field is empty. -/
theorem C2_assembled_value :
    (∀ (l : LCDState) (env : TelemetryEnv) (d4 d3 d2 d1 d0 : ℕ),
      decode_digit l.d1E4 = some d4 → decode_digit l.d1E3 = some d3 →
      decode_digit l.d1E2 = some d2 → decode_digit l.d1E1 = some d1 →
      decode_digit l.d1E0 = some d0 →
      (run_cycle l env).value =
        ((d4 : ℚ) * 10000 + (d3 : ℚ) * 1000 + (d2 : ℚ) * 100 + (d1 : ℚ) * 10
          + (d0 : ℚ)) * compute_dot_multiplier l.dots) ∧
    (run_cycle exampleLCD envOK).value = 123.45 ∧
    (run_cycle exampleLCD envOK).mode = "w" ∧
    (run_cycle exampleLCD envOK).error = "" := by
  have main : ∀ (l : LCDState) (env : TelemetryEnv) (d4 d3 d2 d1 d0 : ℕ),
      decode_digit l.d1E4 = some d4 → decode_digit l.d1E3 = some d3 →
      decode_digit l.d1E2 = some d2 → decode_digit l.d1E1 = some d1 →
      decode_digit l.d1E0 = some d0 →
      (run_cycle l env).value =
        ((d4 : ℚ) * 10000 + (d3 : ℚ) * 1000 + (d2 : ℚ) * 100 + (d1 : ℚ) * 10
          + (d0 : ℚ)) * compute_dot_multiplier l.dots := by
    intro l env d4 d3 d2 d1 d0 h4 h3 h2 h1 h0
    rw [run_cycle_value]
    simp only [digitPatterns, List.map, h4, h3, h2, h1, h0]
    exact assemble_value_somes d4 d3 d2 d1 d0 l.dots
  refine ⟨main, ?_, by decide, by decide⟩
  have h := main exampleLCD envOK 1 2 3 4 5 (by decide) (by decide) (by decide)
    (by decide) (by decide)
  rw [h]
  norm_num [exampleLCD, compute_dot_multiplier]

/-- C2 witness: the general clause applied at the example state: decode
hypotheses hold at (1,2,3,4,5) and the value is the weighted sum times the
example's multiplier. -/
theorem C2_assembled_value_witness :
    (run_cycle exampleLCD envOK).value =
      ((1 : ℚ) * 10000 + (2 : ℚ) * 1000 + (3 : ℚ) * 100 + (4 : ℚ) * 10
        + (5 : ℚ)) * compute_dot_multiplier exampleLCD.dots :=
  C2_assembled_value.1 exampleLCD envOK 1 2 3 4 5 (by decide) (by decide)
    (by decide) (by decide) (by decide)

/-- C3: if at least one of the 5 digit patterns is unrecognized, the
cycle's value is exactly 0 regardless of the other digits and dots, a
warning is attached to the cycle's error field, and the log row for the
cycle is still produced (full 10-column schema, value cell formatted from
0). -/
theorem C3_unrecognized_zero (l : LCDState) (env : TelemetryEnv) (ts : String)
    (h : ∃ p ∈ digitPatterns l, decode_digit p = none) :
    (run_cycle l env).value = 0 ∧
    (run_cycle l env).error ≠ "" ∧
    (log_entry_row ts (run_cycle l env)).length = 10 ∧
    (log_entry_row ts (run_cycle l env))[2]? = some (fmt4 0) := by
  have hval : (run_cycle l env).value = 0 := by
    rw [run_cycle_value]
    rcases h with ⟨p, hp, hdp⟩
    exact assemble_value_of_mem_none _ _ (List.mem_map.mpr ⟨p, hp, hdp⟩)
  have herr : (run_cycle l env).error ≠ "" := by
    have hlen : 0 < ((run_cycle l env).error).length := by
      rw [run_cycle_error]
      exact decode_digits_err_pos _ _ h
    intro hc
    rw [hc] at hlen
    simp at hlen
  refine ⟨hval, herr, rfl, ?_⟩
  simp [log_entry_row, hval]

/-- C3 witness: with the 1E2 slot showing the unrecognized pattern {a, g},
the cycle's value is 0, the error field is nonempty, and the 10-column row
is still produced. -/
theorem C3_unrecognized_zero_witness :
    (run_cycle badLCD envOK).value = 0 ∧
    (run_cycle badLCD envOK).error ≠ "" ∧
    (log_entry_row "2025-01-01 00:00:00.000" (run_cycle badLCD envOK)).length = 10 ∧
    (log_entry_row "2025-01-01 00:00:00.000" (run_cycle badLCD envOK))[2]? =
      some (fmt4 0) :=
  C3_unrecognized_zero badLCD envOK "2025-01-01 00:00:00.000" (by decide)

/-- C10: for every LCD state and telemetry environment the cycle's value
lies in the closed range [0, 99999]: recognized digits are at most 9, the
multiplier is one of 1, 0.1, 0.01, 0.001, and any unrecognized digit
forces 0. -/
theorem C10_value_range (l : LCDState) (env : TelemetryEnv) :
    0 ≤ (run_cycle l env).value ∧ (run_cycle l env).value ≤ 99999 := by
  rw [run_cycle_value]
  simp only [digitPatterns, List.map]
  cases h4 : decode_digit l.d1E4 with
  | none =>
    rw [assemble_value_of_mem_none _ _ (by simp)]
    norm_num
  | some d4 =>
  cases h3 : decode_digit l.d1E3 with
  | none =>
    rw [assemble_value_of_mem_none _ _ (by simp)]
    norm_num
  | some d3 =>
  cases h2 : decode_digit l.d1E2 with
  | none =>
    rw [assemble_value_of_mem_none _ _ (by simp)]
    norm_num
  | some d2 =>
  cases h1 : decode_digit l.d1E1 with
  | none =>
    rw [assemble_value_of_mem_none _ _ (by simp)]
    norm_num
  | some d1 =>
  cases h0 : decode_digit l.d1E0 with
  | none =>
    rw [assemble_value_of_mem_none _ _ (by simp)]
    norm_num
  | some d0 =>
  rw [assemble_value_somes]
  have b4 : (d4 : ℚ) ≤ 9 := by exact_mod_cast decode_digit_le9 _ _ h4
  have b3 : (d3 : ℚ) ≤ 9 := by exact_mod_cast decode_digit_le9 _ _ h3
  have b2 : (d2 : ℚ) ≤ 9 := by exact_mod_cast decode_digit_le9 _ _ h2
  have b1 : (d1 : ℚ) ≤ 9 := by exact_mod_cast decode_digit_le9 _ _ h1
  have b0 : (d0 : ℚ) ≤ 9 := by exact_mod_cast decode_digit_le9 _ _ h0
  have n4 : (0 : ℚ) ≤ (d4 : ℚ) := Nat.cast_nonneg d4
  have n3 : (0 : ℚ) ≤ (d3 : ℚ) := Nat.cast_nonneg d3
  have n2 : (0 : ℚ) ≤ (d2 : ℚ) := Nat.cast_nonneg d2
  have n1 : (0 : ℚ) ≤ (d1 : ℚ) := Nat.cast_nonneg d1
  have n0 : (0 : ℚ) ≤ (d0 : ℚ) := Nat.cast_nonneg d0
  obtain ⟨hm0, hm1⟩ := compute_dot_multiplier_bounds l.dots
  constructor
  · apply mul_nonneg _ (le_of_lt hm0)
    linarith
  · calc ((d4 : ℚ) * 10000 + (d3 : ℚ) * 1000 + (d2 : ℚ) * 100 + (d1 : ℚ) * 10
        + (d0 : ℚ)) * compute_dot_multiplier l.dots
        ≤ ((d4 : ℚ) * 10000 + (d3 : ℚ) * 1000 + (d2 : ℚ) * 100 + (d1 : ℚ) * 10
        + (d0 : ℚ)) * 1 := by
          apply mul_le_mul_of_nonneg_left hm1
          linarith
    _ ≤ 99999 := by linarith

/-- Helper: the source decoder agrees with the claim-side table on all
2^7 segment patterns. -/
theorem decode_digit_eq_specDecode :
    ∀ a b c d e f g : Bool,
      decode_digit ⟨a, b, c, d, e, f, g⟩ = specDecode ⟨a, b, c, d, e, f, g⟩ := by
  decide

/-- Helper: the lit-segment name list is strictly sorted (it is filtered
from the alphabetical `SEGMENT_NAMES`), so it coincides with Python's
`sorted(on_segments)`. -/
theorem onNames_sorted :
    ∀ a b c d e f g : Bool,
      List.Pairwise (fun x y : String => x.data < y.data) (onNames ⟨a, b, c, d, e, f, g⟩) := by
  decide

/-- C1: on every assignment of on/off values to the seven segments of one
digit slot, `decode_digit` returns the documented digit for each of the 10
canonical patterns and 0 for the empty pattern (it agrees everywhere with
the claim-side table `specDecode`); on any other subset it returns `None`
and appends exactly one error message, whose text embeds the sorted lit
segment names, to the cycle's `error_msg`; it is total (never raises). -/
theorem C1_segment_decoder_total (s : SegPattern) (err : String) :
    decode_digit s = specDecode s ∧
    (decode_digit s = none →
      decode_digit_step s err = (none, joinErr err (warnMsg s))) ∧
    warnMsg s =
      "Warning: decode_digit got unrecognized segment pattern: "
        ++ pyListRepr (onNames s) ∧
    List.Pairwise (fun x y : String => x.data < y.data) (onNames s) := by
  obtain ⟨a, b, c, d, e, f, g⟩ := s
  refine ⟨decode_digit_eq_specDecode a b c d e f g, ?_, rfl,
    onNames_sorted a b c d e f g⟩
  intro h
  simp [decode_digit_step, h]

/-- C1 witness: the two-segment pattern {a, g} is not in the table; the
decoder returns `None` and appends its warning to an empty accumulator. -/
theorem C1_segment_decoder_total_witness :
    decode_digit ⟨true, false, false, false, false, false, true⟩ = none ∧
    decode_digit_step ⟨true, false, false, false, false, false, true⟩ "" =
      (none, joinErr "" (warnMsg ⟨true, false, false, false, false, false, true⟩)) :=
  ⟨by decide,
    (C1_segment_decoder_total ⟨true, false, false, false, false, false, true⟩ "").2.1
      (by decide)⟩

/-- C4: for all 8 combinations of the three dot booleans the multiplier
follows the priority order 0.1 > 0.01 > 0.001 > default 1.0, and exactly
one of the four multipliers is produced. -/
theorem C4_dot_multiplier_priority (d : Dots) :
    (d.d0_1 = true → compute_dot_multiplier d = 1/10) ∧
    (d.d0_1 = false → d.d0_01 = true → compute_dot_multiplier d = 1/100) ∧
    (d.d0_1 = false → d.d0_01 = false → d.d0_001 = true →
      compute_dot_multiplier d = 1/1000) ∧
    (d.d0_1 = false → d.d0_01 = false → d.d0_001 = false →
      compute_dot_multiplier d = 1) ∧
    compute_dot_multiplier d ∈ ([1, 1/10, 1/100, 1/1000] : List ℚ) := by
  rcases d with ⟨x, y, z⟩
  cases x <;> cases y <;> cases z <;> simp [compute_dot_multiplier]

/-- C4 witness: with all three dots lit simultaneously the 0.1 dot wins;
with none lit the default 1.0 applies. -/
theorem C4_dot_multiplier_priority_witness :
    compute_dot_multiplier ⟨true, true, true⟩ = 1/10 ∧
    compute_dot_multiplier ⟨false, false, false⟩ = 1 :=
  ⟨(C4_dot_multiplier_priority ⟨true, true, true⟩).1 rfl,
   (C4_dot_multiplier_priority ⟨false, false, false⟩).2.2.2.1 rfl rfl rfl⟩

/-- C9: for every combination of the 7 mode booleans the label is the
`+`-joined names of the lit modes in the fixed enumeration order
(w, curr, volt, freq, ct, ec, pf), with sentinel "unknown" when none are
lit; in particular w and pf lit yields "w+pf" and none lit yields
"unknown". -/
theorem C9_mode_label_join :
    (∀ m : Modes, mode_label m = specModeLabel m) ∧
    mode_label ⟨true, false, false, false, false, false, true⟩ = "w+pf" ∧
    mode_label ⟨false, false, false, false, false, false, false⟩ = "unknown" := by
  refine ⟨fun m => ?_, by decide, by decide⟩
  exact (by decide :
    ∀ w curr volt freq ct ec pf : Bool,
      mode_label ⟨w, curr, volt, freq, ct, ec, pf⟩ =
        specModeLabel ⟨w, curr, volt, freq, ct, ec, pf⟩)
    m.w m.curr m.volt m.freq m.ct m.ec m.pf

/-- An all-black binary frame (every pixel 0). -/
def blackFrame : Frame := fun _ _ => 0

/-- C5 counterexample: the claim says `on_threshold` defaults to 100, but
the Python signature `def evaluate_roi(frame_thresh, roi_tuple,
on_threshold=50)` defaults it to 50: on an all-black 8×8 rect
(black_pixels = 64) the default call returns true while a threshold of
100 returns false. -/
theorem C5_default_counterexample :
    evaluate_roi_default blackFrame ⟨0, 0, 8, 8⟩ = true ∧
    evaluate_roi blackFrame ⟨0, 0, 8, 8⟩ 100 = false := by
  constructor <;> decide

/-- C5 (amended): the Region Evaluator returns the boolean
`black_pixels ≥ on_threshold` with `black_pixels = area(rect) −
white_pixels`, for every binary frame, rect and threshold; the function's
own default threshold is 50 (each call site in the loop passes 100
explicitly); it is total. -/
theorem C5_region_evaluator (frame : Frame) (r : Rect) (t : ℤ) :
    (evaluate_roi frame r t = true ↔
      (total_pixels r : ℤ) - (white_pixels frame r : ℤ) ≥ t) ∧
    evaluate_roi_default frame r = evaluate_roi frame r 50 := by
  constructor
  · simp [evaluate_roi]
  · rfl

/-- C5 witness: the amended characterization evaluated on the all-black
8×8 rect at the true default threshold 50. -/
theorem C5_region_evaluator_witness :
    evaluate_roi blackFrame ⟨0, 0, 8, 8⟩ 50 = true :=
  (C5_region_evaluator blackFrame ⟨0, 0, 8, 8⟩ 50).1.mpr (by decide)

/-- A uniform grayscale frame of intensity 160, the binarizer's threshold
value. -/
def gray160 : Frame := fun _ _ => 160

/-- C6 counterexample: the claim says intensity ≥ 160 becomes white(255),
but OpenCV `THRESH_BINARY` uses a strict comparison, so a pixel of
intensity exactly 160 becomes black(0). -/
theorem C6_threshold_counterexample :
    gray160 0 0 ≥ 160 ∧ binarize gray160 0 0 = 0 ∧ binarize gray160 0 0 ≠ 255 := by
  decide

/-- C6 (amended): the Binarizer is the pure per-pixel threshold
`pixel > 160` (equivalently ≥ 161) ↦ white(255), `pixel ≤ 160` ↦
black(0), producing a same-size binary frame (a total function on the
same pixel grid) with no other statistic. -/
theorem C6_binarizer (frame : Frame) (x y : ℕ) :
    binarize frame x y = (if frame x y ≥ 161 then 255 else 0) ∧
    (binarize frame x y = 0 ∨ binarize frame x y = 255) := by
  have h1 : binarize frame x y = if frame x y ≥ 161 then 255 else 0 := by
    unfold binarize cv2_threshold_binary
    by_cases h : 160 < frame x y
    · rw [if_pos h, if_pos (by omega)]
    · rw [if_neg h, if_neg (by omega)]
  refine ⟨h1, ?_⟩
  rw [h1]
  by_cases h : frame x y ≥ 161
  · right
    rw [if_pos h]
  · left
    rw [if_neg h]

/-- C7 counterexample: at a call with `now = 0` (capture due) and the
post-capture sample `capTs = 0.01`, the code sets `last_capture_time` to
the start-of-call sample 0 but logs the timestamp 0.01 — the log record's
timestamp is not the same time sample as `last_capture_time`, contrary to
the claim. -/
theorem C7_timestamp_counterexample :
    (loop_sched (35/100) (-(35/100)) 0 (1/100)).captured = true ∧
    (loop_sched (35/100) (-(35/100)) 0 (1/100)).newLast = 0 ∧
    (loop_sched (35/100) (-(35/100)) 0 (1/100)).logTs = some (1/100) ∧
    (loop_sched (35/100) (-(35/100)) 0 (1/100)).logTs ≠
      some ((loop_sched (35/100) (-(35/100)) 0 (1/100)).newLast) := by
  norm_num [loop_sched]

/-- C7 (amended): if `now − last < interval` the call captures nothing,
leaves `last_capture_time` unchanged and sleeps exactly
`min(interval − elapsed, 0.05)` (hence at most that); if
`now − last ≥ interval` exactly one capture cycle runs,
`last_capture_time` is set to the `now` sampled at the start of the call,
and the log record's timestamp is the separate `datetime.now()` sample
taken just after frame acquisition; with interval 0.35 s, calls at
t = 0, 0.1, 0.2, 0.4 s capture only at t = 0 and t = 0.4. -/
theorem C7_scheduler (interval last now capTs : ℚ) :
    (now - last < interval →
      (loop_sched interval last now capTs).captured = false ∧
      (loop_sched interval last now capTs).newLast = last ∧
      (loop_sched interval last now capTs).keepRunning = true ∧
      ∃ s, (loop_sched interval last now capTs).sleep = some s ∧
        s ≤ min (interval - (now - last)) (1/20)) ∧
    (interval ≤ now - last →
      (loop_sched interval last now capTs).captured = true ∧
      (loop_sched interval last now capTs).newLast = now ∧
      (loop_sched interval last now capTs).logTs = some capTs) ∧
    (∀ ts0 ts1 ts2 ts3 : ℚ,
      sched_captures (35/100) (-(35/100))
        [(0, ts0), (1/10, ts1), (2/10, ts2), (4/10, ts3)] =
        [true, false, false, true]) := by
  refine ⟨?_, ?_, ?_⟩
  · intro h
    refine ⟨by simp [loop_sched, h], by simp [loop_sched, h],
      by simp [loop_sched, h], ?_⟩
    refine ⟨min (interval - (now - last)) (1/20), by simp [loop_sched, h], le_refl _⟩
  · intro h
    have h2 : ¬(now - last < interval) := not_lt.mpr h
    exact ⟨by simp [loop_sched, h2], by simp [loop_sched, h2], by simp [loop_sched, h2]⟩
  · intro ts0 ts1 ts2 ts3
    norm_num [sched_captures, loop_sched]

/-- C7 witness: the no-capture clause at t = 0.1 with last capture at 0,
and the capture clause at t = 0 from the initial
`last_capture_time = start − interval`. -/
theorem C7_scheduler_witness :
    (loop_sched (35/100) 0 (1/10) (11/100)).captured = false ∧
    (loop_sched (35/100) (-(35/100)) 0 (1/100)).captured = true :=
  ⟨((C7_scheduler (35/100) 0 (1/10) (11/100)).1 (by norm_num)).1,
   ((C7_scheduler (35/100) (-(35/100)) 0 (1/100)).2.1 (by norm_num)).1⟩

/-- C8 counterexample: all three telemetry reads run inside a single
`try` block, so when the battery-voltage read fails the input-voltage and
output-current fields are also left absent even though those reads would
have succeeded — a failure of one read does not leave only that field
absent. -/
theorem C8_single_try_counterexample :
    read_telemetry ⟨none, some 5000, some 120⟩ = (none, none, none) ∧
    (⟨none, some 5000, some 120⟩ : TelemetryEnv).vin = some 5000 ∧
    (⟨none, some 5000, some 120⟩ : TelemetryEnv).iout = some 120 :=
  ⟨rfl, rfl, rfl⟩

/-- C8 (amended): the three telemetry reads are attempted sequentially in
one recovery scope — the first failing read leaves its own field and all
later fields absent while earlier successes are retained; a telemetry
failure never touches the cycle's error column, and the cycle's 10-column
log row is still produced. -/
theorem C8_telemetry_best_effort (l : LCDState) (env : TelemetryEnv) (ts : String) :
    (env.vbat = none → read_telemetry env = (none, none, none)) ∧
    (∀ b, env.vbat = some b → env.vin = none →
      read_telemetry env = (some b, none, none)) ∧
    (∀ b v, env.vbat = some b → env.vin = some v → env.iout = none →
      read_telemetry env = (some b, some v, none)) ∧
    (∀ b v i, env.vbat = some b → env.vin = some v → env.iout = some i →
      read_telemetry env = (some b, some v, some i)) ∧
    (run_cycle l env).error = (run_cycle l ⟨none, none, none⟩).error ∧
    (log_entry_row ts (run_cycle l env)).length = 10 := by
  refine ⟨?_, ?_, ?_, ?_, rfl, rfl⟩
  · intro h
    simp [read_telemetry, h]
  · intro b hb hv
    simp [read_telemetry, hb, hv]
  · intro b v hb hv hi
    simp [read_telemetry, hb, hv, hi]
  · intro b v i hb hv hi
    simp [read_telemetry, hb, hv, hi]

/-- C8 witness: the cascade clause applied at the environment where only
the battery-voltage read fails, plus error-column independence there. -/
theorem C8_telemetry_best_effort_witness :
    read_telemetry ⟨none, some 4800, some 110⟩ = (none, none, none) ∧
    (run_cycle exampleLCD ⟨none, some 4800, some 110⟩).error =
      (run_cycle exampleLCD ⟨none, none, none⟩).error :=
  ⟨(C8_telemetry_best_effort exampleLCD ⟨none, some 4800, some 110⟩ "").1 rfl,
   (C8_telemetry_best_effort exampleLCD ⟨none, some 4800, some 110⟩ "").2.2.2.2.1⟩

end PowerMeterOCR
